import Mathlib

/-!
Verification development for the SSE streaming core of the fastchat
repository (Go).  The definitions below are shallow embeddings of the
functions in internal/llm/stream.go, internal/llm/claude.go and the
OpenAI-compatible provider, together with a model of the JSON decoding
performed by the Go standard library on the payloads that occur here.
-/

/-- One streamed chunk, mirroring Go type StreamChunk
(fields Content, Done, Error) from internal/llm/provider.go.
The Go error value is modelled structurally by GoError. -/
inductive GoError where
  /-- claude.go: fmt.Errorf("failed to parse SSE data: %w", err) -/
  | sseParseFailure
  /-- claude.go: fmt.Errorf("API error: %s", errMsg) -/
  | apiError (msg : String)
  /-- openai provider: fmt.Errorf("failed to parse chunk: %w", err) -/
  | chunkParseFailure
  /-- stream.go: scanner.Err() surfaced in the trailing StreamChunk -/
  | scanError (msg : String)
  /-- claude.go: fmt.Errorf("API error (status %d): %s", code, body) -/
  | claudeStatusError (status : Nat) (body : String)
  /-- openai provider: fmt.Errorf("API error %d: %s", code, body) -/
  | openaiStatusError (status : Nat) (body : String)
deriving DecidableEq, Repr

structure StreamChunk where
  content : String := ""
  done : Bool := false
  error : Option GoError := none
deriving DecidableEq, Repr

/-- Go type ChatMessage (provider.go): role plus text content. -/
structure ChatMessage where
  role : String
  content : String
deriving DecidableEq, Repr

/-- JSON values as decoded by encoding/json.  Numeric literals are kept
as integers: no payload considered in this development carries a
fractional number. -/
inductive Json where
  | null
  | bool (b : Bool)
  | num (n : Int)
  | str (s : String)
  | arr (xs : List Json)
  | obj (fields : List (String × Json))

/-- Field lookup in a decoded JSON object (Go map indexing: first
binding wins; duplicate keys do not occur in the payloads here). -/
def objLookup (fields : List (String × Json)) (k : String) : Option Json :=
  (fields.find? (fun f => f.1 = k)).map (fun f => f.2)

/-- Go type assertion v.(string) on an interface value decoded from JSON. -/
def Json.asString : Json → Option String
  | .str s => some s
  | _ => none

/-- Go type assertion v.(map[string]interface\x7binterface\x7d) on a decoded value. -/
def Json.asObj : Json → Option (List (String × Json))
  | .obj fields => some fields
  | _ => none

/-- fields[k].(string): present and a string. -/
def getString (fields : List (String × Json)) (k : String) : Option String :=
  (objLookup fields k).bind Json.asString

/-! ### A JSON parser modelling encoding/json on the payloads in scope

Whitespace, null/true/false, strings with the standard escapes,
integer numbers, arrays and objects.  Fractional and exponent number
literals are not modelled (none of the payloads in this development
use them); on such input the parser fails.  -/

def hexVal (c : Char) : Option Nat :=
  if '0' ≤ c ∧ c ≤ '9' then some (c.toNat - '0'.toNat)
  else if 'a' ≤ c ∧ c ≤ 'f' then some (c.toNat - 'a'.toNat + 10)
  else if 'A' ≤ c ∧ c ≤ 'F' then some (c.toNat - 'A'.toNat + 10)
  else none

def skipWs : List Char → List Char
  | c :: cs => if c = ' ' ∨ c = '\t' ∨ c = '\n' ∨ c = '\r' then skipWs cs else c :: cs
  | [] => []

/-- Parse the body of a JSON string literal (after the opening quote). -/
def parseStrAux (acc : List Char) : List Char → Option (String × List Char)
  | '\"' :: rest => some (String.mk acc.reverse, rest)
  | '\\' :: c :: rest =>
    match c with
    | '\"' => parseStrAux ('\"' :: acc) rest
    | '\\' => parseStrAux ('\\' :: acc) rest
    | '/' => parseStrAux ('/' :: acc) rest
    | 'n' => parseStrAux ('\n' :: acc) rest
    | 't' => parseStrAux ('\t' :: acc) rest
    | 'r' => parseStrAux ('\r' :: acc) rest
    | 'b' => parseStrAux ('\x08' :: acc) rest
    | 'f' => parseStrAux ('\x0c' :: acc) rest
    | 'u' =>
      match rest with
      | h1 :: h2 :: h3 :: h4 :: rest2 =>
        match hexVal h1, hexVal h2, hexVal h3, hexVal h4 with
        | some a, some b, some c, some d =>
          parseStrAux (Char.ofNat (((a * 16 + b) * 16 + c) * 16 + d) :: acc) rest2
        | _, _, _, _ => none
      | _ => none
    | _ => none
  | c :: rest =>
    if c = '\"' ∨ c = '\\' then none else parseStrAux (c :: acc) rest
  | [] => none

def parseNum (cs : List Char) : Option (Json × List Char) :=
  let (neg, cs1) := match cs with
    | '-' :: r => (true, r)
    | _ => (false, cs)
  let digits := cs1.takeWhile (fun c => c.isDigit)
  let rest := cs1.dropWhile (fun c => c.isDigit)
  if digits.isEmpty then none
  else
    match rest with
    | '.' :: _ => none
    | 'e' :: _ => none
    | 'E' :: _ => none
    | _ =>
      let n : Nat := digits.foldl (fun acc c => acc * 10 + (c.toNat - '0'.toNat)) 0
      some (.num (if neg then -(n : Int) else (n : Int)), rest)

mutual

def parseVal : Nat → List Char → Option (Json × List Char)
  | 0, _ => none
  | fuel + 1, cs =>
    match skipWs cs with
    | 'n' :: 'u' :: 'l' :: 'l' :: rest => some (.null, rest)
    | 't' :: 'r' :: 'u' :: 'e' :: rest => some (.bool true, rest)
    | 'f' :: 'a' :: 'l' :: 's' :: 'e' :: rest => some (.bool false, rest)
    | '\"' :: rest => (parseStrAux [] rest).map (fun p => (.str p.1, p.2))
    | '[' :: rest =>
      (match skipWs rest with
       | ']' :: rest2 => some (.arr [], rest2)
       | rest2 => (parseItems fuel rest2).map (fun p => (.arr p.1, p.2)))
    | '\x7b' :: rest =>
      (match skipWs rest with
       | '\x7d' :: rest2 => some (.obj [], rest2)
       | rest2 => (parseMembers fuel rest2).map (fun p => (.obj p.1, p.2)))
    | cs1 => parseNum cs1

def parseItems : Nat → List Char → Option (List Json × List Char)
  | 0, _ => none
  | fuel + 1, cs =>
    match parseVal fuel cs with
    | none => none
    | some (v, rest) =>
      match skipWs rest with
      | ',' :: rest2 =>
        (parseItems fuel rest2).map (fun p => (v :: p.1, p.2))
      | ']' :: rest2 => some ([v], rest2)
      | _ => none

def parseMembers : Nat → List Char → Option (List (String × Json) × List Char)
  | 0, _ => none
  | fuel + 1, cs =>
    match skipWs cs with
    | '\"' :: rest =>
      (match parseStrAux [] rest with
       | none => none
       | some (k, r1) =>
         match skipWs r1 with
         | ':' :: r2 =>
           (match parseVal fuel r2 with
            | none => none
            | some (v, r3) =>
              match skipWs r3 with
              | ',' :: r4 => (parseMembers fuel r4).map (fun p => ((k, v) :: p.1, p.2))
              | '\x7d' :: r4 => some ([(k, v)], r4)
              | _ => none)
         | _ => none)
    | _ => none

end

/-- json.Unmarshal of a whole payload: the entire input must form one
JSON value (surrounding whitespace allowed). -/
def parseJson (s : String) : Option Json :=
  match parseVal (s.length + 1) s.data with
  | some (v, rest) => if (skipWs rest).isEmpty then some v else none
  | none => none

/-! ### Event-typed decoder (claude.go, the onData callback in Stream) -/

/-- json.Unmarshal(data, &event) with event a map[string]interface\x7b\x7d:
succeeds on a JSON object (its bindings) and on null (nil map, which
behaves as an empty map under indexing); fails otherwise. -/
def unmarshalMap (s : String) : Option (List (String × Json)) :=
  match parseJson s with
  | some (.obj fields) => some fields
  | some .null => some []
  | _ => none

/-- The switch on event["type"] in claude.go lines 82-116. -/
def decodeClaudeEvent (event : List (String × Json)) : StreamChunk × Bool :=
  match getString event "type" with
  | none => ({}, false)
  | some eventType =>
    if eventType = "content_block_delta" then
      match (objLookup event "delta").bind Json.asObj with
      | none => ({}, false)
      | some delta =>
        match getString delta "text" with
        | none => ({}, false)
        | some text => ({ content := text, done := false }, false)
    else if eventType = "message_stop" then
      ({ done := true }, true)
    else if eventType = "error" then
      let errMsg :=
        match (objLookup event "error").bind Json.asObj with
        | none => "unknown error"
        | some errData =>
          match getString errData "message" with
          | none => "unknown error"
          | some msg => msg
      ({ error := some (.apiError errMsg) }, true)
    else
      ({}, false)

/-- The anonymous onData callback passed to ParseSSE in claude.go. -/
def claudeOnData (data : String) : StreamChunk × Bool :=
  match unmarshalMap data with
  | none => ({ error := some .sseParseFailure }, true)
  | some event => decodeClaudeEvent event

/-! ### Delta-typed decoder (openaiProvider.parseChunk) -/

structure OpenAIChoice where
  deltaContent : String
  finishReason : Option String
deriving DecidableEq, Repr

/-- Unmarshal a JSON value into a Go string field: absent or null keeps
the zero value "", a string gives its value, any other type is an
unmarshal type error. -/
def goStringField (v : Option Json) : Option String :=
  match v with
  | none => some ""
  | some .null => some ""
  | some (.str s) => some s
  | some _ => none

/-- Unmarshal into a Go *string field: absent or null gives nil. -/
def goStringPtrField (v : Option Json) : Option (Option String) :=
  match v with
  | none => some none
  | some .null => some none
  | some (.str s) => some (some s)
  | some _ => none

/-- Unmarshal the Delta sub-struct \x7b Content string \x7d. -/
def goDeltaField (v : Option Json) : Option String :=
  match v with
  | none => some ""
  | some .null => some ""
  | some (.obj fields) => goStringField (objLookup fields "content")
  | some _ => none

/-- Unmarshal one element of the Choices slice. -/
def goChoice (j : Json) : Option OpenAIChoice :=
  match j with
  | .null => some { deltaContent := "", finishReason := none }
  | .obj fields =>
    match goDeltaField (objLookup fields "delta") with
    | none => none
    | some c =>
      match goStringPtrField (objLookup fields "finish_reason") with
      | none => none
      | some fr => some { deltaContent := c, finishReason := fr }
  | _ => none

/-- Unmarshal the Choices slice: absent or null gives the empty slice. -/
def goChoices (v : Option Json) : Option (List OpenAIChoice) :=
  match v with
  | none => some []
  | some .null => some []
  | some (.arr xs) => xs.mapM goChoice
  | some _ => none

/-- json.Unmarshal(data, &response) for the anonymous response struct
in openaiProvider.parseChunk. -/
def unmarshalOpenAI (s : String) : Option (List OpenAIChoice) :=
  match parseJson s with
  | some (.obj fields) => goChoices (objLookup fields "choices")
  | some .null => some []
  | _ => none

/-- openaiProvider.parseChunk: the delta-typed decoder.  The two arms of
the finish_reason conditional in the source return identical values;
the conditional is kept to mirror the source. -/
def parseChunk (data : String) : StreamChunk × Bool :=
  if data = "[DONE]" then
    ({ done := true }, true)
  else
    match unmarshalOpenAI data with
    | none => ({ error := some .chunkParseFailure }, true)
    | some choices =>
      match choices with
      | c :: _ =>
        let content := c.deltaContent
        match c.finishReason with
        | some fr =>
          if fr ≠ "" then ({ content := content, done := false }, false)
          else ({ content := content }, false)
        | none => ({ content := content }, false)
      | [] => ({}, false)

/-! ### Frame extractor (ParseSSE, stream.go)

The goroutine is modelled as a deterministic trace generator over:
  - the list of lines the bufio.Scanner yields,
  - an optional scanner error reported after the last line,
  - the cancellation context, modelled by the poll index from which
    ctx.Done() is closed (polls happen sequentially inside one
    goroutine, so the poll counter is an adequate local clock),
  - a select oracle resolving the nondeterministic choice Go makes in
    a select statement when both the send case and the ctx.Done() case
    are ready (true picks the ctx.Done() branch).
The channel is modelled as always ready to accept a send (a consuming
caller); channel capacity and blocking are outside the claims here. -/

structure GoCtx where
  cancelAt : Option Nat
deriving DecidableEq, Repr

def GoCtx.doneAt (ctx : GoCtx) (t : Nat) : Bool :=
  match ctx.cancelAt with
  | none => false
  | some n => decide (n ≤ t)

inductive Ev where
  /-- onData invoked with the payload bytes after the data prefix -/
  | invoke (payload : String)
  /-- a StreamChunk sent on the channel -/
  | send (c : StreamChunk)
  /-- body.Close() invoked -/
  | closeBody
  /-- close(ch) invoked -/
  | closeChan
deriving DecidableEq, Repr

/-- strings.HasPrefix. -/
def prefMatch (s pre : String) : Bool := pre.data.isPrefixOf s.data

/-- strings.TrimPrefix. -/
def prefStrip (s pre : String) : String :=
  if prefMatch s pre then String.mk (s.data.drop pre.data.length) else s

/-- The for scanner.Scan() loop of ParseSSE.  Returns the events of the
loop body and, when the loop consumed every line without returning
early, the poll clock at loop exit. -/
def sseLoop (ctx : GoCtx) (oracle : Nat → Bool) (onData : String → StreamChunk × Bool) :
    List String → Nat → List Ev × Option Nat
  | [], t => ([], some t)
  | line :: rest, t =>
    if ctx.doneAt t then ([], none)
    else if line = "" then sseLoop ctx oracle onData rest (t + 1)
    else if prefMatch line ":" then sseLoop ctx oracle onData rest (t + 1)
    else if prefMatch line "data: " then
      let data := prefStrip line "data: "
      let r := onData data
      if ctx.doneAt (t + 1) && oracle (t + 1) then ([.invoke data], none)
      else if r.2 then ([.invoke data, .send r.1], none)
      else
        let rec2 := sseLoop ctx oracle onData rest (t + 2)
        (.invoke data :: .send r.1 :: rec2.1, rec2.2)
    else sseLoop ctx oracle onData rest (t + 1)

/-- ParseSSE (stream.go): the full goroutine body, including the
trailing scanner.Err() check and the two deferred calls (body.Close()
then close(ch), in LIFO order of their defer statements). -/
def ParseSSE (ctx : GoCtx) (oracle : Nat → Bool) (onData : String → StreamChunk × Bool)
    (lines : List String) (readErr : Option String) : List Ev :=
  let r := sseLoop ctx oracle onData lines 0
  match r.2 with
  | none => r.1 ++ [.closeBody, .closeChan]
  | some t =>
    match readErr with
    | none => r.1 ++ [.closeBody, .closeChan]
    | some e =>
      if ctx.doneAt t && oracle t then r.1 ++ [.closeBody, .closeChan]
      else r.1 ++ [.send { error := some (.scanError e) }, .closeBody, .closeChan]

def Ev.isSend : Ev → Bool
  | .send _ => true
  | _ => false

def Ev.isInvoke : Ev → Bool
  | .invoke _ => true
  | _ => false

def Ev.isCloseBody : Ev → Bool
  | .closeBody => true
  | _ => false

def Ev.isCloseChan : Ev → Bool
  | .closeChan => true
  | _ => false

/-- The chunks sent on the channel, in order. -/
def sentList (evs : List Ev) : List StreamChunk :=
  evs.filterMap fun e =>
    match e with
    | .send c => some c
    | _ => none

/-- The payloads handed to the decoder, in order. -/
def invokedList (evs : List Ev) : List String :=
  evs.filterMap fun e =>
    match e with
    | .invoke p => some p
    | _ => none

/-- The events visible on the channel (sends and the close). -/
def chanEvents (evs : List Ev) : List Ev :=
  evs.filter fun e => e.isSend || e.isCloseChan

def bodyCloseCount (evs : List Ev) : Nat := (evs.filter Ev.isCloseBody).length

def chanCloseCount (evs : List Ev) : Nat := (evs.filter Ev.isCloseChan).length

/-! ### Provider stream composition

claudeProvider.Stream starts its own goroutine that ranges over the
channel produced by ParseSSE, filters structural no-op chunks, and
forwards the rest to the caller-facing channel; it defers close(ch)
and resp.Body.Close() of its own.  openaiProvider.Stream returns the
ParseSSE channel directly. -/

/-- The filter in claude.go line 122. -/
def passesClaudeFilter (c : StreamChunk) : Bool :=
  !(c.content == "") || c.done || c.error.isSome

/-- The forwarding loop in claude.go lines 120-129, with its own poll
clock and select oracle (the send select at line 123). -/
def claudeForward (ctx : GoCtx) (oracle : Nat → Bool) :
    List StreamChunk → Nat → List Ev
  | [], _ => []
  | c :: rest, t =>
    if passesClaudeFilter c then
      if ctx.doneAt t && oracle t then []
      else .send c :: claudeForward ctx oracle rest (t + 1)
    else claudeForward ctx oracle rest t

/-- The observable execution of one provider stream: the events on the
channel handed to the caller, and the total number of Close()
invocations performed on the response body. -/
structure StreamExec where
  callerEvents : List Ev
  bodyCloses : Nat
deriving DecidableEq, Repr

/-- claudeProvider.Stream after a 200 response: the inner ParseSSE
goroutine (with clock ctx1/oracle1) and the forwarding goroutine (with
clock ctx2/oracle2; both observe the same context, but their poll
clocks interleave independently).  The forwarding goroutine closes the
caller channel and calls resp.Body.Close() a second time via its own
defer. -/
def claudeStreamRun (ctx1 : GoCtx) (oracle1 : Nat → Bool) (ctx2 : GoCtx) (oracle2 : Nat → Bool)
    (lines : List String) (readErr : Option String) : StreamExec :=
  let inner := ParseSSE ctx1 oracle1 claudeOnData lines readErr
  let fwd := claudeForward ctx2 oracle2 (sentList inner) 0
  { callerEvents := fwd ++ [.closeChan]
    bodyCloses := bodyCloseCount inner + 1 }

/-- openaiProvider.Stream after a 200 response: the ParseSSE channel is
the caller channel; only ParseSSE touches the body. -/
def openaiStreamRun (ctx : GoCtx) (oracle : Nat → Bool)
    (lines : List String) (readErr : Option String) : StreamExec :=
  let tr := ParseSSE ctx oracle parseChunk lines readErr
  { callerEvents := chanEvents tr
    bodyCloses := bodyCloseCount tr }

/-! ### Provider façade: response validation and request building -/

/-- An HTTP response as the providers consume it: the status code, the
body text as io.ReadAll would return it on the error path, and the
body as the line sequence plus optional read error the scanner would
yield on the streaming path. -/
structure HttpResponse where
  status : Nat
  bodyText : String
  bodyLines : List String
  readErr : Option String
deriving DecidableEq, Repr

inductive StreamOutcome where
  /-- Stream returned (nil, err) before any channel was created -/
  | immediateError (e : GoError)
  /-- Stream returned a channel; the stream execution follows -/
  | stream (exec : StreamExec)
deriving DecidableEq, Repr

/-- claude.go lines 61-65 and onward: the status check and hand-off. -/
def claudeHandleResponse (resp : HttpResponse) (ctx1 : GoCtx) (oracle1 : Nat → Bool)
    (ctx2 : GoCtx) (oracle2 : Nat → Bool) : StreamOutcome :=
  if resp.status ≠ 200 then
    .immediateError (.claudeStatusError resp.status resp.bodyText)
  else
    .stream (claudeStreamRun ctx1 oracle1 ctx2 oracle2 resp.bodyLines resp.readErr)

/-- openai provider lines 70-77: the status check and hand-off. -/
def openaiHandleResponse (resp : HttpResponse) (ctx : GoCtx) (oracle : Nat → Bool) :
    StreamOutcome :=
  if resp.status ≠ 200 then
    .immediateError (.openaiStatusError resp.status resp.bodyText)
  else
    .stream (openaiStreamRun ctx oracle resp.bodyLines resp.readErr)

/-- Provider configuration fields used when building a request. -/
structure ProviderCfg where
  apiKey : String
  baseURL : String
  model : String
  systemPrompt : String
  maxTokens : Int
deriving DecidableEq, Repr

structure HttpRequest where
  method : String
  url : String
  headers : List (String × String)
  body : Json

/-- json.Marshal of one ChatMessage (tags "role"/"content"). -/
def chatMessageJson (m : ChatMessage) : Json :=
  .obj [("role", .str m.role), ("content", .str m.content)]

/-- The request body map built in claude.go lines 28-36. -/
def claudeReqBody (p : ProviderCfg) (messages : List ChatMessage) : Json :=
  .obj ([("model", .str p.model),
         ("max_tokens", .num p.maxTokens),
         ("stream", .bool true),
         ("messages", .arr (messages.map chatMessageJson))] ++
        (if p.systemPrompt ≠ "" then [("system", .str p.systemPrompt)] else []))

/-- The request claude.go builds (lines 27-52). -/
def claudeBuildRequest (p : ProviderCfg) (messages : List ChatMessage) : HttpRequest :=
  { method := "POST"
    url := p.baseURL ++ "/v1/messages"
    headers := [("x-api-key", p.apiKey),
                ("anthropic-version", "2023-06-01"),
                ("content-type", "application/json")]
    body := claudeReqBody p messages }

/-- The message list the openai provider serializes (lines 28-39):
the synthetic system message, when configured, precedes the
caller-supplied messages. -/
def openaiReqMessages (p : ProviderCfg) (messages : List ChatMessage) : List ChatMessage :=
  (if p.systemPrompt ≠ "" then [{ role := "system", content := p.systemPrompt }] else []) ++
  messages

/-- The request body map built in the openai provider (lines 41-46). -/
def openaiReqBody (p : ProviderCfg) (messages : List ChatMessage) : Json :=
  .obj [("model", .str p.model),
        ("max_tokens", .num p.maxTokens),
        ("stream", .bool true),
        ("messages", .arr ((openaiReqMessages p messages).map chatMessageJson))]

/-- The request the openai provider builds (lines 26-61). -/
def openaiBuildRequest (p : ProviderCfg) (messages : List ChatMessage) : HttpRequest :=
  { method := "POST"
    url := p.baseURL ++ "/chat/completions"
    headers := [("Authorization", "Bearer " ++ p.apiKey),
                ("Content-Type", "application/json")]
    body := openaiReqBody p messages }

/-! ### Derived notions used by the claims -/

/-- A terminal chunk: done marker or an error. -/
def isTerminal (c : StreamChunk) : Bool := c.done || c.error.isSome

/-- Every chunk except possibly the last is non-terminal: once a
terminal chunk is delivered, no further chunks follow. -/
def terminalOnlyLast : List StreamChunk → Bool
  | [] => true
  | [_] => true
  | c :: rest => !isTerminal c && terminalOnlyLast rest

/-- No send event occurs after the first channel close. -/
def noSendAfterClose : List Ev → Bool
  | [] => true
  | .closeChan :: rest => rest.all (fun e => !e.isSend)
  | _ :: rest => noSendAfterClose rest

/-- The payloads the frame extractor hands to the decoder if nothing
stops it early: the data lines, in order, with the prefix stripped;
blank lines, comment lines, and all other lines contribute nothing.
The conditional chain mirrors the loop body of ParseSSE. -/
def dataPayloads : List String → List String
  | [] => []
  | line :: rest =>
    if line = "" then dataPayloads rest
    else if prefMatch line ":" then dataPayloads rest
    else if prefMatch line "data: " then prefStrip line "data: " :: dataPayloads rest
    else dataPayloads rest

/-- The chunk ParseSSE appends when the scanner reports a read error. -/
def scanErrChunk (e : String) : StreamChunk := { error := some (.scanError e) }

/-- Field access on a built request's JSON body. -/
def reqBodyField (r : HttpRequest) (k : String) : Option Json :=
  match r.body with
  | .obj fields => objLookup fields k
  | _ => none

/-! ### Helper lemmas -/

theorem terminalOnlyLast_cons (c : StreamChunk) (cs : List StreamChunk) :
    terminalOnlyLast (c :: cs) = (cs.isEmpty || (!isTerminal c && terminalOnlyLast cs)) := by
  cases cs <;> simp [terminalOnlyLast]

theorem terminalOnlyLast_of_all (cs : List StreamChunk)
    (h : cs.all (fun c => !isTerminal c) = true) : terminalOnlyLast cs = true := by
  induction cs with
  | nil => rfl
  | cons c rest ih =>
    simp only [List.all_cons, Bool.and_eq_true] at h
    rw [terminalOnlyLast_cons, h.1, ih h.2]
    simp

theorem terminalOnlyLast_append_single (xs : List StreamChunk) (c : StreamChunk)
    (h : xs.all (fun c => !isTerminal c) = true) : terminalOnlyLast (xs ++ [c]) = true := by
  induction xs with
  | nil => rfl
  | cons x rest ih =>
    simp only [List.all_cons, Bool.and_eq_true] at h
    rw [List.cons_append, terminalOnlyLast_cons, h.1, ih h.2]
    simp

theorem sseLoop_events (ctx : GoCtx) (o : Nat → Bool) (d : String → StreamChunk × Bool) :
    ∀ (lines : List String) (t : Nat),
      ((sseLoop ctx o d lines t).1).all (fun e => e.isSend || e.isInvoke) = true := by
  intro lines
  induction lines with
  | nil => intro t; rfl
  | cons line rest ih =>
    intro t
    simp only [sseLoop]
    split
    · rfl
    · split
      · exact ih (t + 1)
      · split
        · exact ih (t + 1)
        · split
          · split
            · rfl
            · split
              · rfl
              · simpa [Ev.isSend, Ev.isInvoke] using ih (t + 2)
          · exact ih (t + 1)

theorem filter_eq_nil_of_all {α : Type} (l : List α) (p q : α → Bool)
    (hall : l.all p = true) (hpq : ∀ a, p a = true → q a = false) :
    l.filter q = [] := by
  induction l with
  | nil => rfl
  | cons a rest ih =>
    simp only [List.all_cons, Bool.and_eq_true] at hall
    rw [List.filter_cons, hpq a hall.1]
    simpa using ih hall.2

theorem sseLoop_no_closeBody (ctx : GoCtx) (o : Nat → Bool) (d : String → StreamChunk × Bool)
    (lines : List String) (t : Nat) :
    ((sseLoop ctx o d lines t).1).filter Ev.isCloseBody = [] := by
  refine filter_eq_nil_of_all _ _ _ (sseLoop_events ctx o d lines t) ?_
  intro a ha
  cases a <;> simp_all [Ev.isSend, Ev.isInvoke, Ev.isCloseBody]

theorem sseLoop_no_closeChan (ctx : GoCtx) (o : Nat → Bool) (d : String → StreamChunk × Bool)
    (lines : List String) (t : Nat) :
    ((sseLoop ctx o d lines t).1).filter Ev.isCloseChan = [] := by
  refine filter_eq_nil_of_all _ _ _ (sseLoop_events ctx o d lines t) ?_
  intro a ha
  cases a <;> simp_all [Ev.isSend, Ev.isInvoke, Ev.isCloseChan]

/-- ParseSSE always performs exactly one body.Close(), on every exit
path: the single deferred call in stream.go line 19. -/
theorem ParseSSE_bodyClose_once (ctx : GoCtx) (o : Nat → Bool) (d : String → StreamChunk × Bool)
    (lines : List String) (readErr : Option String) :
    bodyCloseCount (ParseSSE ctx o d lines readErr) = 1 := by
  unfold ParseSSE bodyCloseCount
  rcases hr : (sseLoop ctx o d lines 0).2 with _ | t <;>
    rcases readErr with _ | e <;>
      simp only [hr] <;>
        first
        | (split <;> simp [List.filter_append, sseLoop_no_closeBody, Ev.isCloseBody])
        | simp [List.filter_append, sseLoop_no_closeBody, Ev.isCloseBody]

theorem ParseSSE_chanClose_once (ctx : GoCtx) (o : Nat → Bool) (d : String → StreamChunk × Bool)
    (lines : List String) (readErr : Option String) :
    chanCloseCount (ParseSSE ctx o d lines readErr) = 1 := by
  unfold ParseSSE chanCloseCount
  rcases hr : (sseLoop ctx o d lines 0).2 with _ | t <;>
    rcases readErr with _ | e <;>
      simp only [hr] <;>
        first
        | (split <;> simp [List.filter_append, sseLoop_no_closeChan, Ev.isCloseChan])
        | simp [List.filter_append, sseLoop_no_closeChan, Ev.isCloseChan]

/-- The switch of the event-typed decoder stops exactly when the chunk
it returns is terminal (done or error). -/
theorem decodeClaudeEvent_stop_iff_terminal (event : List (String × Json)) :
    (decodeClaudeEvent event).2 = isTerminal (decodeClaudeEvent event).1 := by
  unfold decodeClaudeEvent
  rcases hg : getString event "type" with _ | t
  · rfl
  · by_cases h1 : t = "content_block_delta"
    · simp only [h1, if_true]
      rcases hd : (objLookup event "delta").bind Json.asObj with _ | delta
      · rfl
      · rcases ht : getString delta "text" with _ | text <;> simp [ht, isTerminal]
    · by_cases h2 : t = "message_stop"
      · simp [h1, h2, isTerminal]
      · by_cases h3 : t = "error"
        · simp [h1, h2, h3, isTerminal]
        · simp [h1, h2, h3, isTerminal]

/-- The event-typed decoder stops exactly when the chunk it returns is
terminal (done or error). -/
theorem claudeOnData_stop_iff_terminal (p : String) :
    (claudeOnData p).2 = isTerminal (claudeOnData p).1 := by
  unfold claudeOnData
  rcases h : unmarshalMap p with _ | event
  · rfl
  · exact decodeClaudeEvent_stop_iff_terminal event

/-- The delta-typed decoder stops exactly when the chunk it returns is
terminal (done or error). -/
theorem parseChunk_stop_iff_terminal (p : String) :
    (parseChunk p).2 = isTerminal (parseChunk p).1 := by
  unfold parseChunk
  by_cases h0 : p = "[DONE]"
  · simp [h0, isTerminal]
  · simp only [h0, if_false]
    rcases h : unmarshalOpenAI p with _ | choices
    · rfl
    · rcases choices with _ | ⟨c, rest⟩
      · rfl
      · rcases hf : c.finishReason with _ | fr
        · simp [hf, isTerminal]
        · by_cases h1 : fr = "" <;> simp [hf, h1, isTerminal]

/-- Loop invariant: with a decoder that stops exactly on terminal
chunks, every chunk the loop sends except possibly the last is
non-terminal, and if the loop ran to normal exhaustion every sent
chunk is non-terminal. -/
theorem sseLoop_terminal (ctx : GoCtx) (o : Nat → Bool) (d : String → StreamChunk × Bool)
    (hd : ∀ p, (d p).2 = isTerminal (d p).1) :
    ∀ (lines : List String) (t : Nat),
      terminalOnlyLast (sentList (sseLoop ctx o d lines t).1) = true ∧
      ((sseLoop ctx o d lines t).2.isSome = true →
        (sentList (sseLoop ctx o d lines t).1).all (fun c => !isTerminal c) = true) := by
  intro lines
  induction lines with
  | nil => intro t; exact ⟨rfl, fun _ => rfl⟩
  | cons line rest ih =>
    intro t
    simp only [sseLoop]
    split
    · exact ⟨rfl, fun _ => rfl⟩
    · split
      · exact ih (t + 1)
      · split
        · exact ih (t + 1)
        · split
          · split
            · exact ⟨rfl, by simp⟩
            · split
              · exact ⟨rfl, by simp⟩
              · rename_i hstop
                have hnt : isTerminal (d (prefStrip line "data: ")).1 = false := by
                  rw [← hd]
                  simpa using hstop
                constructor
                · have h1 := (ih (t + 2)).1
                  simp only [sentList, List.filterMap_cons] at *
                  rw [terminalOnlyLast_cons, hnt]
                  simp [h1]
                · intro hs
                  have h2 := (ih (t + 2)).2 (by simpa using hs)
                  simp only [sentList, List.filterMap_cons] at *
                  simp [hnt, h2]
          · exact ih (t + 1)

/-- With a stop-iff-terminal decoder, the chunks ParseSSE sends contain
a terminal chunk only in the last position. -/
theorem ParseSSE_terminalOnlyLast (ctx : GoCtx) (o : Nat → Bool)
    (d : String → StreamChunk × Bool) (hd : ∀ p, (d p).2 = isTerminal (d p).1)
    (lines : List String) (readErr : Option String) :
    terminalOnlyLast (sentList (ParseSSE ctx o d lines readErr)) = true := by
  unfold ParseSSE
  have h := sseLoop_terminal ctx o d hd lines 0
  rcases hr : (sseLoop ctx o d lines 0).2 with _ | t
  · simp only [hr]
    simpa [sentList, List.filterMap_append] using h.1
  · rcases readErr with _ | e
    · simp only [hr]
      simpa [sentList, List.filterMap_append] using h.1
    · simp only [hr]
      split
      · simpa [sentList, List.filterMap_append] using h.1
      · have h2 := h.2 (by simp [hr])
        simp only [sentList, List.filterMap_append]
        simpa [sentList] using
          terminalOnlyLast_append_single _ { error := some (.scanError e) } h2

/-- Every event the claude forwarding goroutine produces is a send. -/
theorem claudeForward_all_send (ctx : GoCtx) (o : Nat → Bool) :
    ∀ (cs : List StreamChunk) (t : Nat), (claudeForward ctx o cs t).all Ev.isSend = true := by
  intro cs
  induction cs with
  | nil => intro t; rfl
  | cons c rest ih =>
    intro t
    simp only [claudeForward]
    split
    · split
      · rfl
      · simpa [Ev.isSend] using ih (t + 1)
    · exact ih t

/-- Every chunk the claude forwarding goroutine sends passes the
no-op filter of claude.go line 122. -/
theorem claudeForward_sends_pass (ctx : GoCtx) (o : Nat → Bool) :
    ∀ (cs : List StreamChunk) (t : Nat),
      (sentList (claudeForward ctx o cs t)).all passesClaudeFilter = true := by
  intro cs
  induction cs with
  | nil => intro t; rfl
  | cons c rest ih =>
    intro t
    simp only [claudeForward]
    split
    · split
      · rfl
      · rename_i hpass _
        simpa [sentList, hpass] using ih (t + 1)
    · exact ih t

/-- The claude forwarding goroutine preserves the terminal-only-last
property of its input chunk sequence. -/
theorem claudeForward_terminal (ctx : GoCtx) (o : Nat → Bool) :
    ∀ (cs : List StreamChunk) (t : Nat), terminalOnlyLast cs = true →
      terminalOnlyLast (sentList (claudeForward ctx o cs t)) = true := by
  intro cs
  induction cs with
  | nil => intro t _; rfl
  | cons c rest ih =>
    intro t hc
    rw [terminalOnlyLast_cons] at hc
    have hrest : terminalOnlyLast rest = true := by
      rcases rest with _ | ⟨r, rs⟩
      · rfl
      · simp only [List.isEmpty_cons, Bool.false_or, Bool.and_eq_true] at hc
        exact hc.2
    simp only [claudeForward]
    split
    · split
      · rfl
      · simp only [sentList, List.filterMap_cons]
        rcases hrest2 : rest with _ | ⟨r, rs⟩
        · simp [claudeForward, sentList, terminalOnlyLast]
        · rw [← hrest2]
          have hcnt : isTerminal c = false := by
            rcases hc2 : isTerminal c with _ | _
            · rfl
            · rw [hrest2] at hc
              simp [hc2] at hc
          rw [terminalOnlyLast_cons, hcnt]
          rw [Bool.or_eq_true]
          exact Or.inr (by simpa using ih (t + 1) hrest)
    · exact ih t hrest

/-- The payloads the loop hands to the decoder form a prefix of the
data payloads of the full line list, whatever the cancellation
schedule, the oracle and the decoder decide. -/
theorem sseLoop_invoked_isPre (ctx : GoCtx) (o : Nat → Bool) (d : String → StreamChunk × Bool) :
    ∀ (lines : List String) (t : Nat),
      (invokedList (sseLoop ctx o d lines t).1).isPrefixOf (dataPayloads lines) = true := by
  intro lines
  induction lines with
  | nil => intro t; rfl
  | cons line rest ih =>
    intro t
    simp only [sseLoop, dataPayloads]
    split
    · simp [invokedList, List.isPrefixOf]
    · split
      · exact ih (t + 1)
      · split
        · exact ih (t + 1)
        · split
          · split
            · simp [invokedList, List.isPrefixOf]
            · split
              · simp [invokedList, List.isPrefixOf]
              · simpa [invokedList, List.isPrefixOf] using ih (t + 2)
          · exact ih (t + 1)

/-- With no cancellation and a decoder that never stops, the loop
processes every line: one decoder invocation and one send per data
payload, in source order. -/
theorem sseLoop_run (o : Nat → Bool) (d : String → StreamChunk × Bool)
    (hstop : ∀ p, (d p).2 = false) :
    ∀ (lines : List String) (t : Nat),
      (sseLoop ⟨none⟩ o d lines t).1 =
        (dataPayloads lines).flatMap (fun p => [.invoke p, .send (d p).1]) ∧
      (sseLoop ⟨none⟩ o d lines t).2.isSome = true := by
  intro lines
  induction lines with
  | nil => intro t; exact ⟨rfl, rfl⟩
  | cons line rest ih =>
    intro t
    have hdone : ∀ u, GoCtx.doneAt ⟨none⟩ u = false := fun u => rfl
    by_cases h1 : line = ""
    · simpa [sseLoop, dataPayloads, hdone, h1] using ih (t + 1)
    · by_cases h2 : prefMatch line ":"
      · simpa [sseLoop, dataPayloads, hdone, h1, h2] using ih (t + 1)
      · by_cases h3 : prefMatch line "data: "
        · have h := ih (t + 2)
          simp [sseLoop, dataPayloads, hdone, h1, h2, h3, hstop, h.1, h.2]
        · simpa [sseLoop, dataPayloads, hdone, h1, h2, h3] using ih (t + 1)


/-- With no cancellation and a never-stopping decoder, the full trace
of ParseSSE: one invocation and one send per data payload in order,
then the read-error chunk when the scanner failed, then the deferred
body close and channel close. -/
theorem ParseSSE_run (o : Nat → Bool) (d : String → StreamChunk × Bool)
    (hstop : ∀ p, (d p).2 = false) (lines : List String) (readErr : Option String) :
    ParseSSE ⟨none⟩ o d lines readErr =
      (dataPayloads lines).flatMap (fun p => [.invoke p, .send (d p).1]) ++
      (match readErr with
       | none => []
       | some e => [.send (scanErrChunk e)]) ++ [.closeBody, .closeChan] := by
  unfold ParseSSE
  have h := sseLoop_run o d hstop lines 0
  rcases hr : (sseLoop ⟨none⟩ o d lines 0).2 with _ | t
  · rw [hr] at h
    simp at h
  · have hdone : ∀ u, GoCtx.doneAt ⟨none⟩ u = false := fun u => rfl
    rcases readErr with _ | e <;> simp [hr, h.1, hdone, scanErrChunk]

theorem invokedList_flat (ps : List String) (f : String → StreamChunk) :
    invokedList (ps.flatMap (fun p => [.invoke p, .send (f p)])) = ps := by
  induction ps with
  | nil => rfl
  | cons p rest ih => simp [invokedList, List.filterMap_cons] at *; simpa using ih

theorem sentList_flat (ps : List String) (f : String → StreamChunk) :
    sentList (ps.flatMap (fun p => [.invoke p, .send (f p)])) = ps.map f := by
  induction ps with
  | nil => rfl
  | cons p rest ih => simp [sentList, List.filterMap_cons] at *; simpa using ih

/-- The decoder invocations of a full ParseSSE trace are those of its
scan loop: the trailing error send and the deferred closes invoke
nothing. -/
theorem invokedList_ParseSSE (ctx : GoCtx) (o : Nat → Bool) (d : String → StreamChunk × Bool)
    (lines : List String) (readErr : Option String) :
    invokedList (ParseSSE ctx o d lines readErr) =
      invokedList (sseLoop ctx o d lines 0).1 := by
  unfold ParseSSE
  rcases hr : (sseLoop ctx o d lines 0).2 with _ | t <;>
    rcases readErr with _ | e <;>
      simp only [hr] <;>
        first
        | (split <;> simp [invokedList, List.filterMap_append])
        | simp [invokedList, List.filterMap_append]

/-- Whatever the schedules and the decoder decide, the payloads handed
to the decoder form a prefix of the data payloads of the source. -/
theorem ParseSSE_invoked_isPre (ctx : GoCtx) (o : Nat → Bool) (d : String → StreamChunk × Bool)
    (lines : List String) (readErr : Option String) :
    (invokedList (ParseSSE ctx o d lines readErr)).isPrefixOf (dataPayloads lines) = true := by
  rw [invokedList_ParseSSE]
  exact sseLoop_invoked_isPre ctx o d lines 0

theorem noSendAfterClose_append (xs : List Ev)
    (h : xs.all (fun e => !e.isCloseChan) = true) :
    noSendAfterClose (xs ++ [Ev.closeChan]) = true := by
  induction xs with
  | nil => rfl
  | cons x rest ih =>
    simp only [List.all_cons, Bool.and_eq_true] at h
    cases x <;> simp_all [noSendAfterClose, Ev.isCloseChan]

theorem chanEvents_of_sends (evs : List Ev)
    (h : evs.all (fun e => e.isSend || e.isInvoke) = true) :
    chanEvents evs = (sentList evs).map Ev.send := by
  induction evs with
  | nil => rfl
  | cons e rest ih =>
    simp only [List.all_cons, Bool.and_eq_true] at h
    cases e <;> simp_all [chanEvents, sentList, Ev.isSend, Ev.isInvoke, Ev.isCloseChan,
      List.filter_cons, List.filterMap_cons]

theorem chanEvents_append (a b : List Ev) :
    chanEvents (a ++ b) = chanEvents a ++ chanEvents b := by
  simp [chanEvents, List.filter_append]

theorem sentList_append (a b : List Ev) :
    sentList (a ++ b) = sentList a ++ sentList b := by
  simp [sentList, List.filterMap_append]

/-- The channel-visible part of a ParseSSE trace: each sent chunk in
order, then the single channel close. -/
theorem chanEvents_ParseSSE (ctx : GoCtx) (o : Nat → Bool) (d : String → StreamChunk × Bool)
    (lines : List String) (readErr : Option String) :
    chanEvents (ParseSSE ctx o d lines readErr) =
      (sentList (ParseSSE ctx o d lines readErr)).map Ev.send ++ [Ev.closeChan] := by
  have hk := sseLoop_events ctx o d lines 0
  unfold ParseSSE
  rcases hr : (sseLoop ctx o d lines 0).2 with _ | t <;>
    rcases readErr with _ | e <;>
      simp only [hr] <;>
        first
        | (split <;>
            (rw [chanEvents_append, sentList_append, chanEvents_of_sends _ hk] <;>
              simp [chanEvents, sentList, Ev.isSend, Ev.isCloseChan, List.filter_cons]))
        | (rw [chanEvents_append, sentList_append, chanEvents_of_sends _ hk] <;>
            simp [chanEvents, sentList, Ev.isSend, Ev.isCloseChan, List.filter_cons])

theorem invokedList_append (a b : List Ev) :
    invokedList (a ++ b) = invokedList a ++ invokedList b := by
  simp [invokedList, List.filterMap_append]

theorem sentList_map_send (cs : List StreamChunk) : sentList (cs.map Ev.send) = cs := by
  induction cs with
  | nil => rfl
  | cons c rest ih => simpa [sentList, List.filterMap_cons] using ih

theorem map_send_not_close (cs : List StreamChunk) :
    (cs.map Ev.send).all (fun e => !e.isCloseChan) = true := by
  induction cs with
  | nil => rfl
  | cons c rest ih => simpa [Ev.isCloseChan] using ih

theorem sends_not_close (evs : List Ev) (h : evs.all Ev.isSend = true) :
    evs.all (fun e => !e.isCloseChan) = true := by
  induction evs with
  | nil => rfl
  | cons e rest ih =>
    simp only [List.all_cons, Bool.and_eq_true] at h ⊢
    refine ⟨?_, ih h.2⟩
    cases e <;> simp_all [Ev.isSend, Ev.isCloseChan]

theorem chanCloseCount_no_close_append (evs : List Ev)
    (h : evs.all (fun e => !e.isCloseChan) = true) :
    chanCloseCount (evs ++ [Ev.closeChan]) = 1 := by
  unfold chanCloseCount
  rw [List.filter_append]
  have : evs.filter Ev.isCloseChan = [] := by
    refine filter_eq_nil_of_all _ _ _ h ?_
    intro a ha
    simpa using ha
  simp [this, Ev.isCloseChan]

/-- C1 (amended): the frame extractor releases the body exactly once on
every exit path, so the delta-typed provider's stream closes the
response body exactly once; the event-typed provider's forwarding
goroutine defers an additional Close on the same body, so its streams
close the body exactly twice — never zero times. -/
theorem c1_body_release_counts (ctx1 : GoCtx) (o1 : Nat → Bool) (ctx2 : GoCtx)
    (o2 : Nat → Bool) (lines : List String) (readErr : Option String) :
    bodyCloseCount (ParseSSE ctx1 o1 claudeOnData lines readErr) = 1 ∧
    (openaiStreamRun ctx1 o1 lines readErr).bodyCloses = 1 ∧
    (claudeStreamRun ctx1 o1 ctx2 o2 lines readErr).bodyCloses = 2 := by
  refine ⟨ParseSSE_bodyClose_once ctx1 o1 claudeOnData lines readErr, ?_, ?_⟩
  · exact ParseSSE_bodyClose_once ctx1 o1 parseChunk lines readErr
  · show bodyCloseCount (ParseSSE ctx1 o1 claudeOnData lines readErr) + 1 = 2
    rw [ParseSSE_bodyClose_once]

/-- C1 counterexample: on an event-typed (claude) stream the response
body's Close is invoked twice — once by the ParseSSE defer and once by
the provider goroutine's own defer — so "exactly once" fails. -/
theorem c1_counterexample :
    (claudeStreamRun ⟨none⟩ (fun _ => false) ⟨none⟩ (fun _ => false)
        ["data: \x7b\"type\":\"message_stop\"\x7d"] none).bodyCloses = 2 ∧
    (claudeStreamRun ⟨none⟩ (fun _ => false) ⟨none⟩ (fun _ => false)
        ["data: \x7b\"type\":\"message_stop\"\x7d"] none).bodyCloses ≠ 1 := by
  exact ⟨rfl, by decide⟩

/-- C2: for both providers, on the caller-facing channel a chunk with
done=true or a non-null error can only be the last chunk sent, the
channel is closed exactly once, and no send occurs after the close —
for every line sequence, read-error outcome, cancellation schedule and
select resolution. -/
theorem c2_terminal_chunk_is_last (ctx1 : GoCtx) (o1 : Nat → Bool) (ctx2 : GoCtx)
    (o2 : Nat → Bool) (lines : List String) (readErr : Option String) :
    terminalOnlyLast (sentList (claudeStreamRun ctx1 o1 ctx2 o2 lines readErr).callerEvents) = true ∧
    chanCloseCount (claudeStreamRun ctx1 o1 ctx2 o2 lines readErr).callerEvents = 1 ∧
    noSendAfterClose (claudeStreamRun ctx1 o1 ctx2 o2 lines readErr).callerEvents = true ∧
    terminalOnlyLast (sentList (openaiStreamRun ctx1 o1 lines readErr).callerEvents) = true ∧
    chanCloseCount (openaiStreamRun ctx1 o1 lines readErr).callerEvents = 1 ∧
    noSendAfterClose (openaiStreamRun ctx1 o1 lines readErr).callerEvents = true := by
  have hfwd := claudeForward_all_send ctx2 o2
    (sentList (ParseSSE ctx1 o1 claudeOnData lines readErr)) 0
  have hinner := ParseSSE_terminalOnlyLast ctx1 o1 claudeOnData
    claudeOnData_stop_iff_terminal lines readErr
  have hoch := chanEvents_ParseSSE ctx1 o1 parseChunk lines readErr
  have hosend := ParseSSE_terminalOnlyLast ctx1 o1 parseChunk
    parseChunk_stop_iff_terminal lines readErr
  refine ⟨?_, ?_, ?_, ?_, ?_, ?_⟩
  · show terminalOnlyLast (sentList (claudeForward ctx2 o2
      (sentList (ParseSSE ctx1 o1 claudeOnData lines readErr)) 0 ++ [Ev.closeChan])) = true
    rw [sentList_append]
    simpa [sentList] using claudeForward_terminal ctx2 o2 _ 0 hinner
  · exact chanCloseCount_no_close_append _ (sends_not_close _ hfwd)
  · exact noSendAfterClose_append _ (sends_not_close _ hfwd)
  · show terminalOnlyLast (sentList (chanEvents (ParseSSE ctx1 o1 parseChunk lines readErr))) = true
    rw [hoch, sentList_append, sentList_map_send]
    simpa [sentList] using hosend
  · show chanCloseCount (chanEvents (ParseSSE ctx1 o1 parseChunk lines readErr)) = 1
    rw [hoch]
    exact chanCloseCount_no_close_append _ (map_send_not_close _)
  · show noSendAfterClose (chanEvents (ParseSSE ctx1 o1 parseChunk lines readErr)) = true
    rw [hoch]
    exact noSendAfterClose_append _ (map_send_not_close _)

/-- C3: the event-typed decoder's decision table.  A payload that fails
to unmarshal yields an error chunk and stop; a content_block_delta
with a text fragment yields a content chunk and continue; message_stop
yields a done chunk and stop; an error event yields an error chunk
carrying the nested error object's message field, "unknown error" when
that is absent, and stop; any other event kind, and any event missing
the expected sub-fields (type / delta / text), yields the empty chunk
and continue. -/
theorem c3_event_decoder :
    (∀ s, unmarshalMap s = none →
      claudeOnData s = ({ error := some .sseParseFailure }, true)) ∧
    (∀ s event, unmarshalMap s = some event →
      claudeOnData s = decodeClaudeEvent event) ∧
    (∀ event delta text, getString event "type" = some "content_block_delta" →
      (objLookup event "delta").bind Json.asObj = some delta →
      getString delta "text" = some text →
      decodeClaudeEvent event = ({ content := text }, false)) ∧
    (∀ event, getString event "type" = some "message_stop" →
      decodeClaudeEvent event = ({ done := true }, true)) ∧
    (∀ event errData msg, getString event "type" = some "error" →
      (objLookup event "error").bind Json.asObj = some errData →
      getString errData "message" = some msg →
      decodeClaudeEvent event = ({ error := some (.apiError msg) }, true)) ∧
    (∀ event, getString event "type" = some "error" →
      (objLookup event "error").bind Json.asObj = none →
      decodeClaudeEvent event = ({ error := some (.apiError "unknown error") }, true)) ∧
    (∀ event errData, getString event "type" = some "error" →
      (objLookup event "error").bind Json.asObj = some errData →
      getString errData "message" = none →
      decodeClaudeEvent event = ({ error := some (.apiError "unknown error") }, true)) ∧
    (∀ event, getString event "type" = none → decodeClaudeEvent event = ({}, false)) ∧
    (∀ event t, getString event "type" = some t →
      t ≠ "content_block_delta" → t ≠ "message_stop" → t ≠ "error" →
      decodeClaudeEvent event = ({}, false)) ∧
    (∀ event, getString event "type" = some "content_block_delta" →
      (objLookup event "delta").bind Json.asObj = none →
      decodeClaudeEvent event = ({}, false)) ∧
    (∀ event delta, getString event "type" = some "content_block_delta" →
      (objLookup event "delta").bind Json.asObj = some delta →
      getString delta "text" = none →
      decodeClaudeEvent event = ({}, false)) := by
  refine ⟨?_, ?_, ?_, ?_, ?_, ?_, ?_, ?_, ?_, ?_, ?_⟩
  · intro s h; simp [claudeOnData, h]
  · intro s event h; simp [claudeOnData, h]
  · intro event delta text hg hd ht; simp [decodeClaudeEvent, hg, hd, ht]
  · intro event hg; simp [decodeClaudeEvent, hg]
  · intro event errData msg hg he hm; simp [decodeClaudeEvent, hg, he, hm]
  · intro event hg he; simp [decodeClaudeEvent, hg, he]
  · intro event errData hg he hm; simp [decodeClaudeEvent, hg, he, hm]
  · intro event hg; simp [decodeClaudeEvent, hg]
  · intro event t hg h1 h2 h3; simp [decodeClaudeEvent, hg, h1, h2, h3]
  · intro event hg hd; simp [decodeClaudeEvent, hg, hd]
  · intro event delta hg hd ht; simp [decodeClaudeEvent, hg, hd, ht]

/-- C3 witness: the decision table evaluated on concrete payloads. -/
theorem c3_event_decoder_witness :
    claudeOnData "\x7b\"type\":\"message_stop\"\x7d" = ({ done := true }, true) ∧
    claudeOnData "\x7b\"type\":\"error\",\"error\":\x7b\"message\":\"Overloaded\"\x7d\x7d"
      = ({ error := some (.apiError "Overloaded") }, true) ∧
    claudeOnData "\x7b\"type\":\"error\"\x7d"
      = ({ error := some (.apiError "unknown error") }, true) ∧
    claudeOnData "[DONE]" = ({ error := some .sseParseFailure }, true) ∧
    claudeOnData "\x7b\"type\":\"content_block_delta\",\"delta\":\x7b\"text\":\"Hi\"\x7d\x7d"
      = ({ content := "Hi" }, false) ∧
    claudeOnData "\x7b\"type\":\"ping\"\x7d" = ({}, false) := by
  refine ⟨?_, ?_, ?_, ?_, ?_, ?_⟩
  · rw [c3_event_decoder.2.1 "\x7b\"type\":\"message_stop\"\x7d"
      [("type", .str "message_stop")] rfl]
    exact c3_event_decoder.2.2.2.1 _ rfl
  · rw [c3_event_decoder.2.1 "\x7b\"type\":\"error\",\"error\":\x7b\"message\":\"Overloaded\"\x7d\x7d"
      [("type", .str "error"), ("error", .obj [("message", .str "Overloaded")])] rfl]
    exact c3_event_decoder.2.2.2.2.1 _ [("message", .str "Overloaded")] "Overloaded" rfl rfl rfl
  · rw [c3_event_decoder.2.1 "\x7b\"type\":\"error\"\x7d" [("type", .str "error")] rfl]
    exact c3_event_decoder.2.2.2.2.2.1 _ rfl rfl
  · exact c3_event_decoder.1 _ rfl
  · rw [c3_event_decoder.2.1
      "\x7b\"type\":\"content_block_delta\",\"delta\":\x7b\"text\":\"Hi\"\x7d\x7d"
      [("type", .str "content_block_delta"), ("delta", .obj [("text", .str "Hi")])] rfl]
    exact c3_event_decoder.2.2.1 _ [("text", .str "Hi")] "Hi" rfl rfl rfl
  · rw [c3_event_decoder.2.1 "\x7b\"type\":\"ping\"\x7d" [("type", .str "ping")] rfl]
    exact c3_event_decoder.2.2.2.2.2.2.2.2.1 _ "ping" rfl (by decide) (by decide) (by decide)

/-- C4: the delta-typed decoder's decision table.  The literal sentinel
[DONE] yields a done chunk and stop; a payload that fails to unmarshal
yields an error chunk and stop; a payload with at least one choice
yields a content chunk holding the first choice's delta content (the
zero value "" when the field is absent) and continue — regardless of
the finish reason, which neither stops the stream nor sets done; a
payload with zero choices yields the empty chunk and continue. -/
theorem c4_delta_decoder :
    parseChunk "[DONE]" = ({ done := true }, true) ∧
    (∀ s, s ≠ "[DONE]" → unmarshalOpenAI s = none →
      parseChunk s = ({ error := some .chunkParseFailure }, true)) ∧
    (∀ s c rest, s ≠ "[DONE]" → unmarshalOpenAI s = some (c :: rest) →
      parseChunk s = ({ content := c.deltaContent, done := false }, false)) ∧
    (∀ s, s ≠ "[DONE]" → unmarshalOpenAI s = some [] →
      parseChunk s = ({}, false)) := by
  refine ⟨rfl, ?_, ?_, ?_⟩
  · intro s hs h; simp [parseChunk, hs, h]
  · intro s c rest hs h
    simp only [parseChunk, hs, if_neg, h]
    rcases hf : c.finishReason with _ | fr
    · simp [hf]
    · by_cases h1 : fr = "" <;> simp [hf, h1]
  · intro s hs h; simp [parseChunk, hs, h]

/-- C4 witness: the decision table on concrete payloads, including a
chunk whose finish_reason is a non-empty string, which neither stops
the stream nor sets done. -/
theorem c4_delta_decoder_witness :
    parseChunk "[DONE]" = ({ done := true }, true) ∧
    parseChunk "\x7b\"choices\":[\x7b\"delta\":\x7b\"content\":\"hi\"\x7d,\"finish_reason\":\"stop\"\x7d]\x7d"
      = ({ content := "hi", done := false }, false) ∧
    parseChunk "\x7b\"choices\":[\x7b\"delta\":\x7b\x7d,\"finish_reason\":null\x7d]\x7d"
      = ({ content := "", done := false }, false) ∧
    parseChunk "\x7b\"choices\":[]\x7d" = ({}, false) ∧
    parseChunk "not json" = ({ error := some .chunkParseFailure }, true) := by
  refine ⟨c4_delta_decoder.1, ?_, ?_, ?_, ?_⟩
  · exact c4_delta_decoder.2.2.1
      "\x7b\"choices\":[\x7b\"delta\":\x7b\"content\":\"hi\"\x7d,\"finish_reason\":\"stop\"\x7d]\x7d"
      { deltaContent := "hi", finishReason := some "stop" } [] (by decide) rfl
  · exact c4_delta_decoder.2.2.1
      "\x7b\"choices\":[\x7b\"delta\":\x7b\x7d,\"finish_reason\":null\x7d]\x7d"
      { deltaContent := "", finishReason := none } [] (by decide) rfl
  · exact c4_delta_decoder.2.2.2 "\x7b\"choices\":[]\x7d" (by decide) rfl
  · exact c4_delta_decoder.2.1 "not json" (by decide) rfl

/-- C5: the frame extractor.  Whatever the schedules and the decoder
decide, the payloads handed to the decoder are an in-order prefix of
the data payloads - so blank lines, comment lines and non-data lines
never reach the decoder; and absent cancellation and stop decisions,
every data line yields exactly one decoder invocation with exactly the
prefix stripped and exactly one chunk sent, in source order. -/
theorem c5_frame_extractor (ctx : GoCtx) (o : Nat → Bool) (d : String → StreamChunk × Bool)
    (lines : List String) (readErr : Option String) (hstop : ∀ p, (d p).2 = false) :
    (invokedList (ParseSSE ctx o d lines readErr)).isPrefixOf (dataPayloads lines) = true ∧
    invokedList (ParseSSE ⟨none⟩ o d lines readErr) = dataPayloads lines ∧
    sentList (ParseSSE ⟨none⟩ o d lines readErr) =
      (dataPayloads lines).map (fun p => (d p).1) ++
      (match readErr with
       | none => []
       | some e => [scanErrChunk e]) := by
  refine ⟨ParseSSE_invoked_isPre ctx o d lines readErr, ?_, ?_⟩
  · rw [ParseSSE_run o d hstop lines readErr]
    rcases readErr with _ | e <;>
      (simp only [invokedList_append, invokedList_flat]; simp [invokedList])
  · rw [ParseSSE_run o d hstop lines readErr]
    rcases readErr with _ | e <;>
      (simp only [sentList_append, sentList_flat]; simp [sentList])

/-- C5 witness: a concrete source mixing blank, comment, data and other
lines, with a decoder echoing the payload. -/
theorem c5_frame_extractor_witness :
    invokedList (ParseSSE ⟨none⟩ (fun _ => false) (fun p => ({ content := p }, false))
        ["", ": keep-alive", "data: a", "event: x", "data: b"] none)
      = ["a", "b"] ∧
    sentList (ParseSSE ⟨none⟩ (fun _ => false) (fun p => ({ content := p }, false))
        ["", ": keep-alive", "data: a", "event: x", "data: b"] none)
      = [{ content := "a" }, { content := "b" }] := by
  have h := c5_frame_extractor ⟨none⟩ (fun _ => false) (fun p => ({ content := p }, false))
    ["", ": keep-alive", "data: a", "event: x", "data: b"] none (fun p => rfl)
  exact ⟨by rw [h.2.1]; rfl, by rw [h.2.2]; rfl⟩

/-- C6 (amended): only the event-typed (claude) provider suppresses
structural no-op chunks - every chunk on its caller channel carries
content, the done marker, or an error.  The delta-typed (openai)
provider returns the ParseSSE channel unfiltered: every chunk the
decoder produces, including no-op chunks, reaches the caller. -/
theorem c6_noop_filtering (ctx1 : GoCtx) (o1 : Nat → Bool) (ctx2 : GoCtx) (o2 : Nat → Bool)
    (lines : List String) (readErr : Option String) :
    (sentList (claudeStreamRun ctx1 o1 ctx2 o2 lines readErr).callerEvents).all
      passesClaudeFilter = true ∧
    sentList (openaiStreamRun ctx1 o1 lines readErr).callerEvents =
      sentList (ParseSSE ctx1 o1 parseChunk lines readErr) := by
  constructor
  · show (sentList (claudeForward ctx2 o2
      (sentList (ParseSSE ctx1 o1 claudeOnData lines readErr)) 0 ++ [Ev.closeChan])).all
        passesClaudeFilter = true
    rw [sentList_append]
    simpa [sentList] using claudeForward_sends_pass ctx2 o2 _ 0
  · show sentList (chanEvents (ParseSSE ctx1 o1 parseChunk lines readErr)) = _
    rw [chanEvents_ParseSSE, sentList_append, sentList_map_send]
    simp [sentList]

/-- C6 counterexample: a zero-choice payload makes the delta-typed
decoder emit the empty no-op chunk, and the openai provider delivers
it to the caller - the claim that both providers suppress no-op chunks
fails. -/
theorem c6_counterexample :
    sentList (openaiStreamRun ⟨none⟩ (fun _ => false)
        ["data: \x7b\"choices\":[]\x7d"] none).callerEvents
      = [{ content := "", done := false, error := none }] ∧
    passesClaudeFilter { content := "", done := false, error := none } = false := by
  exact ⟨rfl, rfl⟩

/-- C7 (amended): both providers return an immediate error carrying the
status code and the response body exactly when the status differs from
200 - not merely on non-2xx statuses - and hand the body to the stream
pipeline exactly when the status is 200. -/
theorem c7_status_check (resp : HttpResponse) (ctx1 : GoCtx) (o1 : Nat → Bool)
    (ctx2 : GoCtx) (o2 : Nat → Bool) :
    (resp.status = 200 →
      claudeHandleResponse resp ctx1 o1 ctx2 o2 =
        .stream (claudeStreamRun ctx1 o1 ctx2 o2 resp.bodyLines resp.readErr) ∧
      openaiHandleResponse resp ctx1 o1 =
        .stream (openaiStreamRun ctx1 o1 resp.bodyLines resp.readErr)) ∧
    (resp.status ≠ 200 →
      claudeHandleResponse resp ctx1 o1 ctx2 o2 =
        .immediateError (.claudeStatusError resp.status resp.bodyText) ∧
      openaiHandleResponse resp ctx1 o1 =
        .immediateError (.openaiStatusError resp.status resp.bodyText)) := by
  constructor
  · intro h
    constructor <;> simp [claudeHandleResponse, openaiHandleResponse, h]
  · intro h
    constructor <;> simp [claudeHandleResponse, openaiHandleResponse, h]

/-- C7 witness: status 401 yields the immediate error for both
providers; status 200 yields a stream for both. -/
theorem c7_status_check_witness :
    claudeHandleResponse ⟨401, "unauthorized", [], none⟩ ⟨none⟩ (fun _ => false)
        ⟨none⟩ (fun _ => false)
      = .immediateError (.claudeStatusError 401 "unauthorized") ∧
    openaiHandleResponse ⟨401, "unauthorized", [], none⟩ ⟨none⟩ (fun _ => false)
      = .immediateError (.openaiStatusError 401 "unauthorized") ∧
    claudeHandleResponse ⟨200, "", [], none⟩ ⟨none⟩ (fun _ => false) ⟨none⟩ (fun _ => false)
      = .stream (claudeStreamRun ⟨none⟩ (fun _ => false) ⟨none⟩ (fun _ => false) [] none) ∧
    openaiHandleResponse ⟨200, "", [], none⟩ ⟨none⟩ (fun _ => false)
      = .stream (openaiStreamRun ⟨none⟩ (fun _ => false) [] none) := by
  have h1 := (c7_status_check ⟨401, "unauthorized", [], none⟩ ⟨none⟩ (fun _ => false)
    ⟨none⟩ (fun _ => false)).2 (by decide)
  have h2 := (c7_status_check ⟨200, "", [], none⟩ ⟨none⟩ (fun _ => false)
    ⟨none⟩ (fun _ => false)).1 rfl
  exact ⟨h1.1, h1.2, h2.1, h2.2⟩

/-- C7 counterexample: 201 is a 2xx success status, yet both providers
terminate with an immediate error rather than proceeding to stream. -/
theorem c7_counterexample :
    (200 ≤ 201 ∧ 201 < 300) ∧
    claudeHandleResponse ⟨201, "created", [], none⟩ ⟨none⟩ (fun _ => false)
        ⟨none⟩ (fun _ => false)
      = .immediateError (.claudeStatusError 201 "created") ∧
    openaiHandleResponse ⟨201, "created", [], none⟩ ⟨none⟩ (fun _ => false)
      = .immediateError (.openaiStatusError 201 "created") := by
  exact ⟨by decide, rfl, rfl⟩

/-- C8 (amended): when the source read fails after the lines are
exhausted and no cancellation occurred (with a decoder that did not
stop), exactly one trailing error chunk carrying the read error is
published before the channel closes; clean exhaustion publishes no
trailing chunk; when cancellation has fired, the trailing error chunk
is best-effort - the select may skip it (here: a schedule under which
nothing is sent at all) - but it is not guaranteed to be skipped. -/
theorem c8_read_error_chunk (o : Nat → Bool) (d : String → StreamChunk × Bool)
    (lines : List String) (e : String) (hstop : ∀ p, (d p).2 = false) :
    sentList (ParseSSE ⟨none⟩ o d lines (some e)) =
      (dataPayloads lines).map (fun p => (d p).1) ++ [scanErrChunk e] ∧
    sentList (ParseSSE ⟨none⟩ o d lines none) =
      (dataPayloads lines).map (fun p => (d p).1) ∧
    sentList (ParseSSE ⟨some 0⟩ (fun _ => true) d lines (some e)) = [] := by
  refine ⟨?_, ?_, ?_⟩
  · rw [ParseSSE_run o d hstop lines (some e)]
    simp only [sentList_append, sentList_flat]
    simp [sentList]
  · rw [ParseSSE_run o d hstop lines none]
    simp only [sentList_append, sentList_flat]
    simp [sentList]
  · rcases lines with _ | ⟨l, rest⟩ <;> rfl

/-- C8 witness: two data lines then a read failure, with an echoing
decoder: the sends end with exactly one scan-error chunk; without the
failure there is no trailing chunk; under an immediate cancellation
whose selects take the ctx branch, nothing is sent. -/
theorem c8_read_error_chunk_witness :
    sentList (ParseSSE ⟨none⟩ (fun _ => false) (fun p => ({ content := p }, false))
        ["data: a", "data: b"] (some "connection reset"))
      = [{ content := "a" }, { content := "b" }, scanErrChunk "connection reset"] ∧
    sentList (ParseSSE ⟨none⟩ (fun _ => false) (fun p => ({ content := p }, false))
        ["data: a", "data: b"] none)
      = [{ content := "a" }, { content := "b" }] ∧
    sentList (ParseSSE ⟨some 0⟩ (fun _ => true) (fun p => ({ content := p }, false))
        ["data: a", "data: b"] (some "connection reset")) = [] := by
  have h := c8_read_error_chunk (fun _ => false) (fun p => ({ content := p }, false))
    ["data: a", "data: b"] "connection reset" (fun p => rfl)
  exact ⟨by rw [h.1]; rfl, by rw [h.2.1]; rfl, h.2.2⟩

/-- C8 counterexample: cancellation has fired before the stream even
starts (the context is done from poll 0), yet when the final select
resolves in favour of the send, the trailing read-error chunk is still
delivered - the claim that it is always skipped after cancellation
fails: the skip is only best-effort. -/
theorem c8_counterexample :
    GoCtx.doneAt ⟨some 0⟩ 0 = true ∧
    sentList (ParseSSE ⟨some 0⟩ (fun _ => false) parseChunk [] (some "read failed"))
      = [scanErrChunk "read failed"] := by
  exact ⟨rfl, rfl⟩


/-- C9: the outbound requests.  The event-typed provider POSTs to
\x7bbase_url\x7d/v1/messages with the x-api-key, anthropic-version and
content-type headers and a body carrying model, max_tokens,
stream: true and the messages, plus a top-level system field exactly
when a system prompt is configured.  The delta-typed provider POSTs to
\x7bbase_url\x7d/chat/completions with the Authorization Bearer and
Content-Type headers, and its serialized message list is the
caller-supplied list, unchanged and in order, prefixed by one
synthetic system-role message exactly when a system prompt is
configured. -/
theorem c9_request_building (p : ProviderCfg) (messages : List ChatMessage) :
    (claudeBuildRequest p messages).method = "POST" ∧
    (claudeBuildRequest p messages).url = p.baseURL ++ "/v1/messages" ∧
    (claudeBuildRequest p messages).headers =
      [("x-api-key", p.apiKey), ("anthropic-version", "2023-06-01"),
       ("content-type", "application/json")] ∧
    reqBodyField (claudeBuildRequest p messages) "model" = some (.str p.model) ∧
    reqBodyField (claudeBuildRequest p messages) "max_tokens" = some (.num p.maxTokens) ∧
    reqBodyField (claudeBuildRequest p messages) "stream" = some (.bool true) ∧
    reqBodyField (claudeBuildRequest p messages) "messages" =
      some (.arr (messages.map chatMessageJson)) ∧
    reqBodyField (claudeBuildRequest p messages) "system" =
      (if p.systemPrompt ≠ "" then some (.str p.systemPrompt) else none) ∧
    (openaiBuildRequest p messages).method = "POST" ∧
    (openaiBuildRequest p messages).url = p.baseURL ++ "/chat/completions" ∧
    (openaiBuildRequest p messages).headers =
      [("Authorization", "Bearer " ++ p.apiKey), ("Content-Type", "application/json")] ∧
    reqBodyField (openaiBuildRequest p messages) "model" = some (.str p.model) ∧
    reqBodyField (openaiBuildRequest p messages) "max_tokens" = some (.num p.maxTokens) ∧
    reqBodyField (openaiBuildRequest p messages) "stream" = some (.bool true) ∧
    reqBodyField (openaiBuildRequest p messages) "messages" =
      some (.arr ((openaiReqMessages p messages).map chatMessageJson)) ∧
    reqBodyField (openaiBuildRequest p messages) "system" = none ∧
    openaiReqMessages p messages =
      (if p.systemPrompt ≠ "" then [{ role := "system", content := p.systemPrompt }] else [])
        ++ messages := by
  refine ⟨rfl, rfl, rfl, ?_, ?_, ?_, ?_, ?_, rfl, rfl, rfl, ?_, ?_, ?_, ?_, ?_, rfl⟩ <;>
    by_cases h : p.systemPrompt = "" <;>
      simp [reqBodyField, claudeBuildRequest, claudeReqBody, openaiBuildRequest,
        openaiReqBody, objLookup, h]

theorem sseLoop_no_data (ctx : GoCtx) (o : Nat → Bool) (d : String → StreamChunk × Bool) :
    ∀ (lines : List String) (t : Nat), (∀ l ∈ lines, prefMatch l "data: " = false) →
      (sseLoop ctx o d lines t).1 = [] := by
  intro lines
  induction lines with
  | nil => intro t _; rfl
  | cons line rest ih =>
    intro t h
    have hline : prefMatch line "data: " = false := h line (by simp)
    have hrest : ∀ l ∈ rest, prefMatch l "data: " = false :=
      fun l hl => h l (by simp [hl])
    simp only [sseLoop]
    split
    · rfl
    · split
      · exact ih (t + 1) hrest
      · split
        · exact ih (t + 1) hrest
        · split
          · simp_all
          · exact ih (t + 1) hrest

/-- Stripping the literal data prefix from a line that carries it. -/
theorem prefStrip_data (rest : String) :
    prefMatch ("data: " ++ rest) "data: " = true ∧
    prefStrip ("data: " ++ rest) "data: " = rest := by
  have hm : prefMatch ("data: " ++ rest) "data: " = true := by
    unfold prefMatch
    rw [String.data_append, List.isPrefixOf_iff_prefix]
    exact List.prefix_append _ _
  refine ⟨hm, ?_⟩
  unfold prefStrip
  rw [if_pos hm, String.data_append]
  show String.mk ((("data: ".data) ++ rest.data).drop ("data: ".data).length) = rest
  rw [List.drop_left]

/-- C10 (amended): a line that does not begin with the six characters
of the literal prefix (e.g. "data:[DONE]" or "data:x", where no space
follows the colon) is silently ignored: the decoder is never invoked
and no chunk is produced.  But a line of the form "data: " followed by
anything - including further whitespace, as in "data:  x" - does carry
the prefix and is processed: exactly the six-character prefix is
stripped and the remainder (" x" there) is the payload. -/
theorem c10_data_prefix (ctx : GoCtx) (o : Nat → Bool) (d : String → StreamChunk × Bool)
    (lines : List String) (rest : String)
    (h : ∀ l ∈ lines, prefMatch l "data: " = false) :
    invokedList (ParseSSE ctx o d lines none) = [] ∧
    sentList (ParseSSE ctx o d lines none) = [] ∧
    prefMatch ("data: " ++ rest) "data: " = true ∧
    prefStrip ("data: " ++ rest) "data: " = rest := by
  have hloop := sseLoop_no_data ctx o d lines 0 h
  refine ⟨?_, ?_, (prefStrip_data rest).1, (prefStrip_data rest).2⟩
  · rw [invokedList_ParseSSE, hloop]; rfl
  · unfold ParseSSE
    rcases hr : (sseLoop ctx o d lines 0).2 with _ | t <;>
      simp [hr, hloop, sentList]

/-- C10 witness: "data:[DONE]" and "data:x" are ignored outright, and
"data:  x" is processed with payload " x". -/
theorem c10_data_prefix_witness :
    invokedList (ParseSSE ⟨none⟩ (fun _ => false) (fun p => ({ content := p }, false))
        ["data:[DONE]", "data:x", "event: y"] none) = [] ∧
    prefStrip ("data: " ++ " x") "data: " = " x" := by
  have h := c10_data_prefix ⟨none⟩ (fun _ => false) (fun p => ({ content := p }, false))
    ["data:[DONE]", "data:x", "event: y"] " x" (by decide)
  exact ⟨h.1, h.2.2.2⟩

/-- C10 counterexample: the line "data:  x" (two spaces) is not
ignored: the frame extractor strips the six-character prefix and
invokes the decoder with payload " x", which is then sent. -/
theorem c10_counterexample :
    invokedList (ParseSSE ⟨none⟩ (fun _ => false) (fun p => ({ content := p }, false))
        ["data:  x"] none) = [" x"] ∧
    sentList (ParseSSE ⟨none⟩ (fun _ => false) (fun p => ({ content := p }, false))
        ["data:  x"] none) = [{ content := " x" }] := by
  exact ⟨rfl, rfl⟩
